import Mathlib

set_option maxRecDepth 16384

/-!
Verification of the constraint generator in `fpga/fpgaboard.py`.

The Python function `fpga_board.generate_vivado_io(csv_data, connector_mappings)`
parses a CSV string into records, keeps the records with at least four fields,
and emits a Vivado TCL constraints document.  The embedding below follows the
source line by line, including its control flow as written:

* the CSV rows are parsed by `csv.reader` (modelled by `csvParse` below);
* rows with at least four fields are turned into dictionaries with keys
  `io_name`, `prodigy_connector`, `pin_no`, `io_voltage`
  (modelled by `IOMapping` / `parse_io_mappings`);
* the `for mapping in io_mappings:` loop body only assigns the four local
  variables; the lookup/emit `if` that follows it is indented at the level of
  the `for` statement, so it executes exactly once, after the loop, on the
  values left by the final iteration (modelled by `last_io_mapping`);
* when `io_mappings` is empty the local variables are never bound and the
  lookup line raises `NameError`; the embedding returns `none` in that case;
* the call of `io_voltage.replace`, whose arguments are the one-letter string
  `V` and the empty string, removes every occurrence of the character `V`
  (modelled by `pyReplaceV`).
-/

/-- One entry of the Python `connector_mappings[connector][pin_no]` tuple:
`(fpga_pin, bank, pin_desc)`, read by position in the source. -/
structure ConnectorPinInfo where
  fpga_pin : String
  bank : String
  pin_desc : String
deriving DecidableEq, Repr

/-- The Python `connector_mappings` dictionary:
`connector_id -> connector_position -> ConnectorPinInfo`, modelled as nested
association lists (keys are unique in a Python dict; `List.lookup` returns the
first binding). -/
def ConnectorMap : Type := List (String × List (String × ConnectorPinInfo))

/-- The record dictionary appended to `io_mappings` for every CSV row with at
least four fields. -/
structure IOMapping where
  io_name : String
  prodigy_connector : String
  pin_no : String
  io_voltage : String
deriving DecidableEq, Repr

/-- The parsing loop of `generate_vivado_io`: keep every row with
`len(row) >= 4` and unpack its first four fields (`row[:4]`); shorter rows are
skipped. -/
def parse_io_mappings : List (List String) → List IOMapping
  | [] => []
  | (a :: b :: c :: d :: _) :: rest => ⟨a, b, c, d⟩ :: parse_io_mappings rest
  | _ :: rest => parse_io_mappings rest

/-- The observable effect of the `for mapping in io_mappings:` loop whose body
only assigns the four locals: after the loop the locals hold the fields of the
last element, and they are unbound (`none`) when the list is empty. -/
def last_io_mapping (ms : List IOMapping) : Option IOMapping :=
  ms.foldl (fun _ m => some m) none

/-- The guarded dictionary access
`if connector in connector_mappings and pin_no in connector_mappings[connector]`
followed by `connector_mappings[connector][pin_no]`. -/
def lookup_pin (cm : ConnectorMap) (connector pin_no : String) :
    Option ConnectorPinInfo :=
  match List.lookup connector cm with
  | none => none
  | some inner => List.lookup pin_no inner

/-- The Python string method call `io_voltage.replace` with arguments `V` and
the empty string: delete every occurrence of the character `V`. -/
def pyReplaceV (s : String) : String :=
  String.mk (s.data.filter (fun c => c ≠ 'V'))

/-- The lines appended by the lookup/emit `if`/`else` of the source: a resolved
block (comment, `PACKAGE_PIN` directive, `IOSTANDARD` directive, blank line) when
the lookup succeeds, an error block (error comment, blank line) otherwise. -/
def emit_block (cm : ConnectorMap) (m : IOMapping) : List String :=
  match lookup_pin cm m.prodigy_connector m.pin_no with
  | some info =>
      ["# " ++ m.io_name ++ " - " ++ m.prodigy_connector ++ "." ++ m.pin_no ++
        " - " ++ info.pin_desc ++ " (" ++ info.bank ++ ")",
       "set_property PACKAGE_PIN " ++ info.fpga_pin ++ " [get_ports " ++
        m.io_name ++ "]",
       "set_property IOSTANDARD LVCMOS" ++ pyReplaceV m.io_voltage ++
        " [get_ports " ++ m.io_name ++ "]",
       ""]
  | none =>
      ["# ERROR: Could not find mapping for " ++ m.io_name ++ " on " ++
        m.prodigy_connector ++ "." ++ m.pin_no,
       ""]

/-- The two fixed header lines appended to `tcl_content` before the loop (the
second one carries an embedded newline in the source literal). -/
def tcl_header : List String :=
  ["# Automatically generated Vivado constraints file",
   "# Generated from I/O mapping CSV data\n"]

/-- `generate_vivado_io` on already-parsed CSV rows: build `io_mappings`, run
the assignment loop, then run the single lookup/emit step on the locals it left
behind, and join everything with newlines.  Returns `none` exactly when the
Python code would hit an unbound local (`io_mappings` empty). -/
def generate_vivado_io_rows (rows : List (List String)) (cm : ConnectorMap) :
    Option String :=
  match last_io_mapping (parse_io_mappings rows) with
  | none => none
  | some m => some (String.intercalate "\n" (tcl_header ++ emit_block cm m))

/-- Model of the Python `csv.reader` (default dialect) over the raw character
list: fields are separated by commas, records by `\n`, `\r\n` or `\r`; a
double quote at the start of a field opens a quoted field in which separators
and line breaks are literal and `""` denotes one quote character; a blank line
yields an empty record; a final record needs no trailing line break.
`field` accumulates the current field (reversed), `row` the completed fields of
the current record (reversed), `started` records whether the current record has
consumed any character, `inQ` whether a quoted field is open, `jq` whether the
previous character closed a quoted field (so a quote now is a `""` escape), and
`cr` whether the previous character was a row-ending `\r` (so a `\n` now is the
second half of one `\r\n` terminator). -/
def csvRun : List Char → List Char → List String → Bool → Bool → Bool → Bool →
    List (List String)
  | [], field, row, started, _, _, _ =>
      if started then [(String.mk field.reverse :: row).reverse] else []
  | c :: rest, field, row, started, inQ, jq, cr =>
      if inQ then
        if c = '"' then csvRun rest field row true false true false
        else csvRun rest (c :: field) row true true false false
      else if cr ∧ c = '\n' then
        csvRun rest [] [] false false false false
      else if c = '"' ∧ jq then
        csvRun rest ('"' :: field) row true true false false
      else if c = ',' then
        csvRun rest [] (String.mk field.reverse :: row) true false false false
      else if c = '\n' then
        (if started then (String.mk field.reverse :: row).reverse else []) ::
          csvRun rest [] [] false false false false
      else if c = '\r' then
        (if started then (String.mk field.reverse :: row).reverse else []) ::
          csvRun rest [] [] false false false true
      else if c = '"' ∧ field.isEmpty then
        csvRun rest field row true true false false
      else
        csvRun rest (c :: field) row true false false false

/-- Python `csv.reader(io.StringIO(csv_data))`, materialised as a list of
records. -/
def csvParse (s : String) : List (List String) :=
  csvRun s.data [] [] false false false false

/-- The full `generate_vivado_io(csv_data, connector_mappings)`:
CSV parsing followed by the generation pass. -/
def generate_vivado_io (csv_data : String) (cm : ConnectorMap) : Option String :=
  generate_vivado_io_rows (csvParse csv_data) cm

/-- The `fpga_board` class of the source holds only a board model name. -/
structure fpga_board where
  model : String

/-- The contribution of a single CSV row to `io_mappings`: one record when the
row has at least four fields, nothing otherwise. -/
def row_to_mappings : List String → List IOMapping
  | a :: b :: c :: d :: _ => [⟨a, b, c, d⟩]
  | _ => []

/-- `lookup_pin` threaded through an explicit connector-map state: every
dictionary access of the source is a read, so the map travels through
unchanged.  Mirrors the membership tests and the subscript access of the
source. -/
def lookup_pin_tracked (cm : ConnectorMap) (connector pin_no : String) :
    Option ConnectorPinInfo × ConnectorMap :=
  match List.lookup connector cm with
  | none => (none, cm)
  | some inner => (List.lookup pin_no inner, cm)

/-- `emit_block` threaded through the connector-map state. -/
def emit_block_tracked (cm : ConnectorMap) (m : IOMapping) :
    List String × ConnectorMap :=
  match lookup_pin_tracked cm m.prodigy_connector m.pin_no with
  | (some info, cm1) =>
      (["# " ++ m.io_name ++ " - " ++ m.prodigy_connector ++ "." ++ m.pin_no ++
          " - " ++ info.pin_desc ++ " (" ++ info.bank ++ ")",
        "set_property PACKAGE_PIN " ++ info.fpga_pin ++ " [get_ports " ++
          m.io_name ++ "]",
        "set_property IOSTANDARD LVCMOS" ++ pyReplaceV m.io_voltage ++
          " [get_ports " ++ m.io_name ++ "]",
        ""], cm1)
  | (none, cm1) =>
      (["# ERROR: Could not find mapping for " ++ m.io_name ++ " on " ++
          m.prodigy_connector ++ "." ++ m.pin_no,
        ""], cm1)

/-- `generate_vivado_io_rows` threaded through the connector-map state, to
express that generation never writes to `connector_mappings`. -/
def generate_vivado_io_tracked (rows : List (List String)) (cm : ConnectorMap) :
    Option String × ConnectorMap :=
  match last_io_mapping (parse_io_mappings rows) with
  | none => (none, cm)
  | some m =>
      (some (String.intercalate "\n" (tcl_header ++ (emit_block_tracked cm m).1)),
       (emit_block_tracked cm m).2)

/-- The voltage-standard transformation as the spec words it: strip one
trailing `V` unit marker, leaving any other occurrence of `V` alone.  Stated
for comparison with the `pyReplaceV` transformation of the source. -/
def stripTrailingV (s : String) : String :=
  if s.data.getLast? = some 'V' then String.mk s.data.dropLast else s

/-- A concrete connector map used by the concrete theorems below:
`J1.A1` is the Clock Input pin `AB12` in bank `34`. -/
def cmJ1 : ConnectorMap := [("J1", [("A1", ⟨"AB12", "34", "Clock Input"⟩)])]

/-- A concrete connector map whose single entry `J3.C2` carries a voltage
reference pin, used for the `IOSTANDARD` theorems. -/
def cmJ3 : ConnectorMap := [("J3", [("C2", ⟨"D4", "35", "VREF supply"⟩)])]

/-- The document the code produces for the two resolvable records `CLK_A` and
`CLK_IN` under `cmJ1`: the header and one resolved block, for `CLK_IN` only. -/
def outTwoResolvable : String :=
  "# Automatically generated Vivado constraints file\n" ++
  "# Generated from I/O mapping CSV data\n\n" ++
  "# CLK_IN - J1.A1 - Clock Input (34)\n" ++
  "set_property PACKAGE_PIN AB12 [get_ports CLK_IN]\n" ++
  "set_property IOSTANDARD LVCMOS3.3 [get_ports CLK_IN]\n"

/-- The document the code produces for the resolvable record `SIG1` followed
by the unresolvable record `SIG2` under `cmJ1`: the header and one error
block, for `SIG2` only. -/
def outMixedPair : String :=
  "# Automatically generated Vivado constraints file\n" ++
  "# Generated from I/O mapping CSV data\n\n" ++
  "# ERROR: Could not find mapping for SIG2 on J9.Z9\n"

/-- The document the code produces for the two unresolvable records `RST` and
`RST2` under `cmJ1`: the header and one error block, for `RST2` only. -/
def outTwoUnresolvable : String :=
  "# Automatically generated Vivado constraints file\n" ++
  "# Generated from I/O mapping CSV data\n\n" ++
  "# ERROR: Could not find mapping for RST2 on J2.B5\n"

lemma csvParse_simple_record :
    csvParse "CLK_IN,J1,A1,3.3V" = [["CLK_IN", "J1", "A1", "3.3V"]] := by
  decide

lemma csvParse_empty : csvParse "" = [] := by decide

lemma csvParse_blank_line :
    csvParse "a,b\n\nc,d\n" = [["a", "b"], [], ["c", "d"]] := by decide

lemma csvParse_quoted_separator :
    csvParse "\x22x,y\x22,z" = [["x,y", "z"]] := by decide

lemma parse_io_mappings_cons (x : List String) (rest : List (List String)) :
    parse_io_mappings (x :: rest) = row_to_mappings x ++ parse_io_mappings rest := by
  match x with
  | [] => rfl
  | [_] => rfl
  | [_, _] => rfl
  | [_, _, _] => rfl
  | _ :: _ :: _ :: _ :: _ => rfl

lemma parse_io_mappings_append (xs ys : List (List String)) :
    parse_io_mappings (xs ++ ys) =
      parse_io_mappings xs ++ parse_io_mappings ys := by
  induction xs with
  | nil => rfl
  | cons x xs ih =>
      rw [List.cons_append, parse_io_mappings_cons, parse_io_mappings_cons, ih,
        List.append_assoc]

lemma row_to_mappings_of_short (r : List String) (h : r.length < 4) :
    row_to_mappings r = [] := by
  match r with
  | [] => rfl
  | [_] => rfl
  | [_, _] => rfl
  | [_, _, _] => rfl
  | _ :: _ :: _ :: _ :: t => simp only [List.length_cons] at h; omega

lemma row_to_mappings_take (r : List String) (h : 4 < r.length) :
    row_to_mappings (r.take 4) = row_to_mappings r := by
  match r with
  | [] => simp only [List.length_nil] at h; omega
  | [_] => simp only [List.length_cons, List.length_nil] at h; omega
  | [_, _] => simp only [List.length_cons, List.length_nil] at h; omega
  | [_, _, _] => simp only [List.length_cons, List.length_nil] at h; omega
  | _ :: _ :: _ :: _ :: t => rfl

lemma last_io_mapping_cons_of_ne (x : IOMapping) (l : List IOMapping)
    (h : l ≠ []) : last_io_mapping (x :: l) = last_io_mapping l := by
  match l with
  | [] => exact absurd rfl h
  | _ :: _ => rfl

lemma last_io_mapping_append (l₁ l₂ : List IOMapping) (h : l₂ ≠ []) :
    last_io_mapping (l₁ ++ l₂) = last_io_mapping l₂ := by
  induction l₁ with
  | nil => rfl
  | cons x t ih =>
      rw [List.cons_append, last_io_mapping_cons_of_ne x (t ++ l₂), ih]
      intro he
      exact h (List.append_eq_nil.mp he).2

lemma last_io_mapping_eq_getLast (l : List IOMapping) :
    last_io_mapping l = l.getLast? := by
  induction l with
  | nil => rfl
  | cons x t ih =>
      match t, ih with
      | [], _ => rfl
      | y :: t2, ih =>
          rw [last_io_mapping_cons_of_ne x (y :: t2) (by simp), ih,
            List.getLast?_cons_cons]

lemma emit_block_tracked_eq (cm : ConnectorMap) (m : IOMapping) :
    emit_block_tracked cm m = (emit_block cm m, cm) := by
  cases hc : List.lookup m.prodigy_connector cm with
  | none =>
      simp [emit_block_tracked, emit_block, lookup_pin_tracked, lookup_pin, hc]
  | some inner =>
      cases hp : List.lookup m.pin_no inner with
      | none =>
          simp [emit_block_tracked, emit_block, lookup_pin_tracked, lookup_pin,
            hc, hp]
      | some info =>
          simp [emit_block_tracked, emit_block, lookup_pin_tracked, lookup_pin,
            hc, hp]

/-- Claim C5: a record with fewer than four fields is silently skipped before
resolution; inserting such a record anywhere in the input leaves the generated
document unchanged, so it contributes no block and no directive line. -/
theorem generate_vivado_io_skips_short_records
    (pre post : List (List String)) (r : List String) (cm : ConnectorMap)
    (h : r.length < 4) :
    generate_vivado_io_rows (pre ++ r :: post) cm =
      generate_vivado_io_rows (pre ++ post) cm := by
  have hp : parse_io_mappings (pre ++ r :: post) =
      parse_io_mappings (pre ++ post) := by
    rw [parse_io_mappings_append, parse_io_mappings_append,
      parse_io_mappings_cons, row_to_mappings_of_short r h, List.nil_append]
  unfold generate_vivado_io_rows
  rw [hp]

theorem generate_vivado_io_skips_short_records_witness :
    (["x", "y"] : List String).length < 4 ∧
    generate_vivado_io_rows
        ([["CLK_IN", "J1", "A1", "3.3V"]] ++ ["x", "y"] ::
          [["LED", "J1", "A1", "3.3V"]]) cmJ1 =
      generate_vivado_io_rows
        ([["CLK_IN", "J1", "A1", "3.3V"]] ++ [["LED", "J1", "A1", "3.3V"]])
        cmJ1 :=
  ⟨by decide,
    generate_vivado_io_skips_short_records [["CLK_IN", "J1", "A1", "3.3V"]]
      [["LED", "J1", "A1", "3.3V"]] ["x", "y"] cmJ1 (by decide)⟩

/-- Claim C6: the generator is deterministic; two runs on identical input text
and identical connector map give identical documents. -/
theorem generate_vivado_io_deterministic (s₁ s₂ : String)
    (cm₁ cm₂ : ConnectorMap) (hs : s₁ = s₂) (hcm : cm₁ = cm₂) :
    generate_vivado_io s₁ cm₁ = generate_vivado_io s₂ cm₂ := by
  rw [hs, hcm]

theorem generate_vivado_io_deterministic_witness :
    generate_vivado_io "CLK_IN,J1,A1,3.3V" cmJ1 =
      generate_vivado_io "CLK_IN,J1,A1,3.3V" cmJ1 :=
  generate_vivado_io_deterministic "CLK_IN,J1,A1,3.3V" "CLK_IN,J1,A1,3.3V"
    cmJ1 cmJ1 rfl rfl

/-- Claim C7: fields beyond the fourth are ignored; a record processes exactly
like the same record truncated to its first four fields. -/
theorem generate_vivado_io_ignores_extra_fields
    (pre post : List (List String)) (r : List String) (cm : ConnectorMap)
    (h : 4 < r.length) :
    generate_vivado_io_rows (pre ++ r :: post) cm =
      generate_vivado_io_rows (pre ++ r.take 4 :: post) cm := by
  have hp : parse_io_mappings (pre ++ r :: post) =
      parse_io_mappings (pre ++ r.take 4 :: post) := by
    rw [parse_io_mappings_append, parse_io_mappings_append,
      parse_io_mappings_cons, parse_io_mappings_cons, row_to_mappings_take r h]
  unfold generate_vivado_io_rows
  rw [hp]

theorem generate_vivado_io_ignores_extra_fields_witness :
    4 < (["LED", "J1", "A1", "3.3V", "spare"] : List String).length ∧
    generate_vivado_io_rows ([] ++ ["LED", "J1", "A1", "3.3V", "spare"] :: [])
        cmJ1 =
      generate_vivado_io_rows
        ([] ++ (["LED", "J1", "A1", "3.3V", "spare"].take 4) :: []) cmJ1 :=
  ⟨by decide,
    generate_vivado_io_ignores_extra_fields [] []
      ["LED", "J1", "A1", "3.3V", "spare"] cmJ1 (by decide)⟩

/-- Claim C8: generation never mutates the connector map; threading the map
through every dictionary access as explicit state returns it unchanged, and the
tracked generator computes the same document as the plain one. -/
theorem generate_vivado_io_preserves_connector_map
    (rows : List (List String)) (cm : ConnectorMap) :
    (generate_vivado_io_tracked rows cm).2 = cm ∧
    (generate_vivado_io_tracked rows cm).1 = generate_vivado_io_rows rows cm := by
  cases hl : last_io_mapping (parse_io_mappings rows) with
  | none => simp [generate_vivado_io_tracked, generate_vivado_io_rows, hl]
  | some m =>
      simp [generate_vivado_io_tracked, generate_vivado_io_rows, hl,
        emit_block_tracked_eq]

/-- Claim C9: the lookup/emit step runs once, after the record loop, so the
document holds exactly the header plus one block derived from the last parsed
record, and prepending a further record in front of a non-empty input changes
nothing. -/
theorem generate_vivado_io_emits_only_last_record
    (rows : List (List String)) (r : List String) (cm : ConnectorMap)
    (m : IOMapping) (h : (parse_io_mappings rows).getLast? = some m) :
    generate_vivado_io_rows rows cm =
      some (String.intercalate "\n" (tcl_header ++ emit_block cm m)) ∧
    generate_vivado_io_rows (r :: rows) cm =
      generate_vivado_io_rows rows cm := by
  have hl : last_io_mapping (parse_io_mappings rows) = some m := by
    rw [last_io_mapping_eq_getLast]; exact h
  have hne : parse_io_mappings rows ≠ [] := by
    intro he
    rw [he] at hl
    simp [last_io_mapping] at hl
  constructor
  · simp [generate_vivado_io_rows, hl]
  · have hstep : last_io_mapping (parse_io_mappings (r :: rows)) =
        last_io_mapping (parse_io_mappings rows) := by
      rw [parse_io_mappings_cons, last_io_mapping_append _ _ hne]
    simp only [generate_vivado_io_rows, hstep]

theorem generate_vivado_io_emits_only_last_record_witness :
    (parse_io_mappings
        [["OLD", "J1", "A1", "3.3V"], ["NEW", "J1", "A1", "3.3V"]]).getLast? =
      some ⟨"NEW", "J1", "A1", "3.3V"⟩ ∧
    (generate_vivado_io_rows
        [["OLD", "J1", "A1", "3.3V"], ["NEW", "J1", "A1", "3.3V"]] cmJ1 =
      some (String.intercalate "\n"
        (tcl_header ++ emit_block cmJ1 ⟨"NEW", "J1", "A1", "3.3V"⟩)) ∧
    generate_vivado_io_rows
        (["PRE", "J1", "A1", "3.3V"] ::
          [["OLD", "J1", "A1", "3.3V"], ["NEW", "J1", "A1", "3.3V"]]) cmJ1 =
      generate_vivado_io_rows
        [["OLD", "J1", "A1", "3.3V"], ["NEW", "J1", "A1", "3.3V"]] cmJ1) :=
  ⟨by decide,
    generate_vivado_io_emits_only_last_record
      [["OLD", "J1", "A1", "3.3V"], ["NEW", "J1", "A1", "3.3V"]]
      ["PRE", "J1", "A1", "3.3V"] cmJ1 ⟨"NEW", "J1", "A1", "3.3V"⟩ (by decide)⟩

/-- Claim C10: the IOSTANDARD value of a resolved block is LVCMOS followed by
the io_standard with every occurrence of the character V removed, not only a
trailing unit suffix: VREF1.8V becomes LVCMOSREF1.8, which differs from the
trailing-suffix reading whenever V occurs in a non-final position. -/
theorem generate_vivado_io_iostandard_removes_every_V
    (rows : List (List String)) (cm : ConnectorMap) (m : IOMapping)
    (info : ConnectorPinInfo)
    (h : (parse_io_mappings rows).getLast? = some m)
    (hres : lookup_pin cm m.prodigy_connector m.pin_no = some info) :
    generate_vivado_io_rows rows cm =
      some (String.intercalate "\n" (tcl_header ++
        ["# " ++ m.io_name ++ " - " ++ m.prodigy_connector ++ "." ++
           m.pin_no ++ " - " ++ info.pin_desc ++ " (" ++ info.bank ++ ")",
         "set_property PACKAGE_PIN " ++ info.fpga_pin ++ " [get_ports " ++
           m.io_name ++ "]",
         "set_property IOSTANDARD LVCMOS" ++ pyReplaceV m.io_voltage ++
           " [get_ports " ++ m.io_name ++ "]",
         ""])) ∧
    pyReplaceV "VREF1.8V" = "REF1.8" ∧
    stripTrailingV "VREF1.8V" = "VREF1.8" ∧
    pyReplaceV "VREF1.8V" ≠ stripTrailingV "VREF1.8V" := by
  refine ⟨?_, by decide, by decide, by decide⟩
  have hl : last_io_mapping (parse_io_mappings rows) = some m := by
    rw [last_io_mapping_eq_getLast]; exact h
  simp [generate_vivado_io_rows, hl, emit_block, hres]

theorem generate_vivado_io_iostandard_removes_every_V_witness :
    (parse_io_mappings [["VREF_SIG", "J3", "C2", "VREF1.8V"]]).getLast? =
      some ⟨"VREF_SIG", "J3", "C2", "VREF1.8V"⟩ ∧
    lookup_pin cmJ3 "J3" "C2" = some ⟨"D4", "35", "VREF supply"⟩ ∧
    (generate_vivado_io_rows [["VREF_SIG", "J3", "C2", "VREF1.8V"]] cmJ3 =
      some (String.intercalate "\n" (tcl_header ++
        ["# " ++ "VREF_SIG" ++ " - " ++ "J3" ++ "." ++ "C2" ++ " - " ++
           "VREF supply" ++ " (" ++ "35" ++ ")",
         "set_property PACKAGE_PIN " ++ "D4" ++ " [get_ports " ++
           "VREF_SIG" ++ "]",
         "set_property IOSTANDARD LVCMOS" ++ pyReplaceV "VREF1.8V" ++
           " [get_ports " ++ "VREF_SIG" ++ "]",
         ""])) ∧
    pyReplaceV "VREF1.8V" = "REF1.8" ∧
    stripTrailingV "VREF1.8V" = "VREF1.8" ∧
    pyReplaceV "VREF1.8V" ≠ stripTrailingV "VREF1.8V") :=
  ⟨by decide, by decide,
    generate_vivado_io_iostandard_removes_every_V
      [["VREF_SIG", "J3", "C2", "VREF1.8V"]] cmJ3
      ⟨"VREF_SIG", "J3", "C2", "VREF1.8V"⟩ ⟨"D4", "35", "VREF supply"⟩
      (by decide) (by decide)⟩

/-- Claim C1 fails on the code: both records below resolve under `cmJ1`, yet
the generated document holds a resolved block only for the final record
`CLK_IN`; the earlier record `CLK_A` gets no comment line, no `PACKAGE_PIN`
directive and no `IOSTANDARD` directive, because the lookup/emit step sits
after the record loop and runs once. -/
theorem generate_vivado_io_drops_earlier_resolved_records :
    lookup_pin cmJ1 "J1" "A1" = some ⟨"AB12", "34", "Clock Input"⟩ ∧
    generate_vivado_io_rows
        [["CLK_A", "J1", "A1", "3.3V"], ["CLK_IN", "J1", "A1", "3.3V"]] cmJ1 =
      some outTwoResolvable ∧
    ¬ ("CLK_A".data <:+: outTwoResolvable.data) := by
  refine ⟨by decide, by decide, by decide⟩

/-- Claim C2 fails on the code: of the two well-formed records below exactly
one block appears after the header (the error block of the final record
`SIG2`), not one block per record in input order; the first record `SIG1`
leaves no trace in the document. -/
theorem generate_vivado_io_single_block_not_per_record :
    generate_vivado_io_rows
        [["SIG1", "J1", "A1", "3.3V"], ["SIG2", "J9", "Z9", "1.8V"]] cmJ1 =
      some outMixedPair ∧
    ¬ ("SIG1".data <:+: outMixedPair.data) := by
  refine ⟨by decide, by decide⟩

/-- Claim C3 fails on the code: both records below are unresolvable under
`cmJ1`, yet only the final record `RST2` receives an error block; the earlier
unresolved record `RST` gets no error block naming its pair `J2.B4`. -/
theorem generate_vivado_io_drops_earlier_error_blocks :
    lookup_pin cmJ1 "J2" "B4" = none ∧
    generate_vivado_io_rows
        [["RST", "J2", "B4", "1.8V"], ["RST2", "J2", "B5", "1.8V"]] cmJ1 =
      some outTwoUnresolvable ∧
    ¬ ("J2.B4".data <:+: outTwoUnresolvable.data) := by
  refine ⟨by decide, by decide, by decide⟩

/-- Claim C4 fails on the code: when no record has at least four fields the
loop never binds its locals and the lookup line raises `NameError` instead of
returning the header-only document; the embedding returns `none` (no document)
for the empty input and for an input whose only record is short. -/
theorem generate_vivado_io_not_total_on_empty_parse :
    generate_vivado_io "" cmJ1 = none ∧
    csvParse "RST,J2\n" = [["RST", "J2"]] ∧
    generate_vivado_io "RST,J2\n" cmJ1 = none := by
  refine ⟨by decide, by decide, by decide⟩
